import Mathlib

/-
  Verification development for osc_router.py.

  The program keeps two module-level globals,
    VALUE_MAP : dict  mapping (in_address, in_value) -> (out_address, out_args)
    FORWARD_UNMAPPED : bool
  built by load_config from a decoded JSON file, and dispatches every inbound
  OSC message through osc_handler, which looks up (address, first_arg) in
  VALUE_MAP.

  The embedding below models:
    - decoded JSON values (Json), with Python floats represented exactly by
      rationals (every JSON/OSC float literal used in the claims is exactly
      representable; NaN never arises from json.load of finite literals);
    - Python `==` on the hashable values that can ever be dict keys (pyEqH):
      numeric values of any of bool/int/float compare by numeric value
      (True == 1 == 1.0 in Python), None equals only None, strings compare
      by content, and values of non-numeric different kinds are unequal;
    - the dict VALUE_MAP as an association list with Python dict semantics:
      insertion replaces the value of an ==-equal existing key (keeping the
      originally stored key, as CPython does) and otherwise appends;
    - osc_handler as a pure function of (VALUE_MAP, FORWARD_UNMAPPED, message)
      returning the forwarding Decision together with the log events the
      handler and send_osc emit (we assume the osc_client is initialized, as
      it always is while the server runs);
    - load_config as a function of the previous global state and the outcome
      of the file read, returning the new global state and log events, or an
      error when the Python code would raise an uncaught exception.
-/

namespace OscRouter

/-- A decoded JSON value, as produced by Python json.load: None, bool, int,
float (modelled exactly by a rational), str, list, dict.  Dicts decoded from
JSON have unique keys (on duplicate keys json.load keeps the last value); we
model a dict as its field list in insertion order. -/
inductive Json where
  | null : Json
  | bool (b : Bool) : Json
  | int (n : ℤ) : Json
  | float (q : ℚ) : Json
  | str (s : String) : Json
  | arr (xs : List Json) : Json
  | obj (fields : List (String × Json)) : Json

/-- Exceptions the modelled fragment of the program can raise:
AttributeError (calling .get on a non-dict) and TypeError (hashing an
unhashable dict key, or iterating a non-iterable). -/
inductive PyErr where
  | attributeError : PyErr
  | typeError : PyErr
deriving DecidableEq

/-- A hashable Python value that can appear as a component of a VALUE_MAP
key: of the JSON-decoded kinds, exactly null/bool/int/float/str are hashable
(lists and dicts raise TypeError when hashed). -/
inductive HVal where
  | null : HVal
  | bool (b : Bool) : HVal
  | int (n : ℤ) : HVal
  | float (q : ℚ) : HVal
  | str (s : String) : HVal

/-- A runtime OSC message argument as delivered to osc_handler: a typed
primitive (int, float, bool or string). -/
inductive Value where
  | int (n : ℤ) : Value
  | float (q : ℚ) : Value
  | bool (b : Bool) : Value
  | str (s : String) : Value

/-- The numeric view Python uses for `==` across bool/int/float:
True is 1, False is 0, ints and floats by value. -/
def numVal : HVal → Option ℚ
  | HVal.bool b => some (if b then 1 else 0)
  | HVal.int n => some (n : ℚ)
  | HVal.float q => some q
  | _ => none

/-- Python `==` on hashable values (the only comparisons dict lookup of
VALUE_MAP keys ever performs): numeric kinds compare by numeric value,
None only equals None, strings by content, anything else is unequal. -/
def pyEqH (a b : HVal) : Bool :=
  match numVal a, numVal b with
  | some x, some y => decide (x = y)
  | none, none =>
    match a, b with
    | HVal.null, HVal.null => true
    | HVal.str s, HVal.str t => decide (s = t)
    | _, _ => false
  | _, _ => false

/-- Python `==` on a VALUE_MAP key, a 2-tuple: componentwise `==`. -/
def pyEqKey (a b : HVal × HVal) : Bool :=
  pyEqH a.1 b.1 && pyEqH a.2 b.2

/-- The VALUE_MAP dict: (in_address, in_value) -> (out_address, out_args),
as an association list in insertion order. -/
abbrev Dict : Type := List ((HVal × HVal) × (Json × Json))

/-- Python `d[k] = v`: if an `==`-equal key is already stored, replace its
value in place (CPython keeps the originally stored key object); otherwise
append the new binding at the end. -/
def dictInsert (d : Dict) (k : HVal × HVal) (v : Json × Json) : Dict :=
  if d.any (fun e => pyEqKey k e.1) then
    d.map (fun e => if pyEqKey k e.1 then (e.1, v) else e)
  else
    d ++ [(k, v)]

/-- Python `k in d` / `d[k]`: the value bound to the `==`-equal stored key,
if any. -/
def dictLookup (d : Dict) (k : HVal × HVal) : Option (Json × Json) :=
  match d.find? (fun e => pyEqKey k e.1) with
  | some e => some e.2
  | none => none

/-- The hashable view of a runtime OSC argument (all four kinds are
hashable). -/
def hvalOf : Value → HVal
  | Value.int n => HVal.int n
  | Value.float q => HVal.float q
  | Value.bool b => HVal.bool b
  | Value.str s => HVal.str s

/-- A runtime OSC argument as a JSON-like value (used to describe the
passthrough output `list(args)`). -/
def jsonOfValue : Value → Json
  | Value.int n => Json.int n
  | Value.float q => Json.float q
  | Value.bool b => Json.bool b
  | Value.str s => Json.str s

/-- `first_arg = args[0] if args else None` (osc_router.py line 162), viewed
as the hashable key component. -/
def firstKey : List Value → HVal
  | [] => HVal.null
  | v :: _ => hvalOf v

/-- An inbound OSC message: address plus ordered arguments
(osc_handler receives them as `address, *args`). -/
structure Msg where
  address : String
  args : List Value

/-- The forwarding decision osc_handler takes for one message: forward a
message with the given address and arguments (a Json value, exactly what is
passed to send_osc), or produce no outbound message. -/
inductive Decision where
  | forward (address : Json) (args : Json) : Decision
  | drop : Decision

/-- The structured log events the handler path emits via log_gui:
RECV for every inbound message, SEND from send_osc, `Ignored (no mapping
for key)` on a drop, and the load_config messages. -/
inductive LogEvent where
  | recv (address : String) (args : List Value) : LogEvent
  | send (address : Json) (args : List Json) : LogEvent
  | ignored (key : HVal × HVal) : LogEvent
  | configCreated : LogEvent
  | configError : LogEvent
  | configLoaded : LogEvent
  | mappingsLoaded (n : Nat) (fu : Bool) : LogEvent

/-- send_osc argument normalization (osc_router.py lines 144-149):
None becomes [], a list is taken as is, any other value is wrapped in a
singleton list.  (JSON has no tuples, so the tuple case never arises.) -/
def send_args : Json → List Json
  | Json.null => []
  | Json.arr xs => xs
  | x => [x]

/-- osc_handler (osc_router.py lines 155-171): look up
(address, first_arg) in VALUE_MAP; on a hit send the rule's
(out_address, out_args); otherwise forward the inbound message itself when
FORWARD_UNMAPPED, else drop and log.  Returns the decision and the log
events emitted (RECV always comes first). -/
def osc_handler (vm : Dict) (fu : Bool) (m : Msg) : Decision × List LogEvent :=
  match dictLookup vm (HVal.str m.address, firstKey m.args) with
  | some (out_address, out_args) =>
      (Decision.forward out_address out_args,
       [LogEvent.recv m.address m.args,
        LogEvent.send out_address (send_args out_args)])
  | none =>
      if fu then
        (Decision.forward (Json.str m.address) (Json.arr (m.args.map jsonOfValue)),
         [LogEvent.recv m.address m.args,
          LogEvent.send (Json.str m.address) (m.args.map jsonOfValue)])
      else
        (Decision.drop,
         [LogEvent.recv m.address m.args,
          LogEvent.ignored (HVal.str m.address, firstKey m.args)])

/-- Python dict .get on a decoded JSON object: the value of the key if
present, else the default.  Decoded objects have unique keys; on duplicate
keys json.load keeps the last value, so we look from the end. -/
def jsonGetD (fields : List (String × Json)) (k : String) (d : Json) : Json :=
  match fields.reverse.find? (fun p => decide (p.1 = k)) with
  | some p => p.2
  | none => d

/-- Python `x.get(k, d)` on an arbitrary decoded value: AttributeError
unless x is a dict. -/
def pyGet (x : Json) (k : String) (d : Json) : Except PyErr Json :=
  match x with
  | Json.obj fields => Except.ok (jsonGetD fields k d)
  | _ => Except.error PyErr.attributeError

/-- Python truthiness, as used by `bool(...)` on line 113 and by
`if not in_addr or not out_addr` on line 124. -/
def truthy : Json → Bool
  | Json.null => false
  | Json.bool b => b
  | Json.int n => decide (n ≠ 0)
  | Json.float q => decide (q ≠ 0)
  | Json.str s => decide (s ≠ "")
  | Json.arr xs => !xs.isEmpty
  | Json.obj fields => !fields.isEmpty

/-- Python `for m in x`: a list yields its elements, a string yields its
characters as 1-character strings, a dict yields its keys; null, bools and
numbers are not iterable (TypeError). -/
def pyIter : Json → Except PyErr (List Json)
  | Json.arr xs => Except.ok xs
  | Json.str s => Except.ok (s.toList.map (fun c => Json.str (String.singleton c)))
  | Json.obj fields => Except.ok (fields.map (fun p => Json.str p.1))
  | _ => Except.error PyErr.typeError

/-- Hashing a decoded value for use in a dict key: the primitive kinds are
hashable; a list or dict raises TypeError (this is what the assignment
`mappings_dict[(in_addr, in_val)] = ...` does when hashing the key tuple). -/
def toHashable : Json → Except PyErr HVal
  | Json.null => Except.ok HVal.null
  | Json.bool b => Except.ok (HVal.bool b)
  | Json.int n => Except.ok (HVal.int n)
  | Json.float q => Except.ok (HVal.float q)
  | Json.str s => Except.ok (HVal.str s)
  | _ => Except.error PyErr.typeError

/-- One iteration of the mappings loop (osc_router.py lines 117-127):
read in_address, in_value, out_address, out_args off the entry (AttributeError
if the entry is not a dict), skip the entry when in_address or out_address is
falsy, otherwise store (out_address, out_args) under the hashable key
(in_address, in_value) (TypeError if either component is unhashable). -/
def buildStep (d : Dict) (m : Json) : Except PyErr Dict :=
  match pyGet m "in_address" Json.null with
  | Except.error e => Except.error e
  | Except.ok in_addr =>
    match pyGet m "in_value" Json.null with
    | Except.error e => Except.error e
    | Except.ok in_val =>
      match pyGet m "out_address" Json.null with
      | Except.error e => Except.error e
      | Except.ok out_addr =>
        match pyGet m "out_args" (Json.arr []) with
        | Except.error e => Except.error e
        | Except.ok out_args =>
          if !truthy in_addr || !truthy out_addr then
            Except.ok d
          else
            match toHashable in_addr with
            | Except.error e => Except.error e
            | Except.ok ka =>
              match toHashable in_val with
              | Except.error e => Except.error e
              | Except.ok kv =>
                Except.ok (dictInsert d (ka, kv) (out_addr, out_args))

/-- The whole mappings loop: fold buildStep over the decoded entries,
propagating the first uncaught exception. -/
def buildMappings : Dict → List Json → Except PyErr Dict
  | d, [] => Except.ok d
  | d, m :: ms =>
    match buildStep d m with
    | Except.error e => Except.error e
    | Except.ok d2 => buildMappings d2 ms

/-- The global state load_config reads and writes: VALUE_MAP and
FORWARD_UNMAPPED. -/
structure RState where
  valueMap : Dict
  forwardUnmapped : Bool

/-- The module-level initial globals (osc_router.py lines 32-33):
VALUE_MAP = empty, FORWARD_UNMAPPED = True. -/
def initState : RState := { valueMap := [], forwardUnmapped := true }

/-- The default config written when config.json does not exist
(osc_router.py lines 91-94). -/
def default_config : Json :=
  Json.obj [("forward_unmapped", Json.bool true), ("mappings", Json.arr [])]

/-- The outcome of load_config's interaction with the file system: the file
was missing and the default was written (or writing it failed), or reading
the existing file failed, or it was read and decoded to `data`. -/
inductive ConfigOutcome where
  | missingWriteOk : ConfigOutcome
  | missingWriteFail : ConfigOutcome
  | readFail : ConfigOutcome
  | readOk (data : Json) : ConfigOutcome

/-- The data-processing tail of load_config (osc_router.py lines 112-130),
applied to successfully obtained config data: set FORWARD_UNMAPPED from
bool(data.get("forward_unmapped", False)), run the mappings loop, install
VALUE_MAP, and log the final summary line.  An uncaught exception (non-dict
data, non-iterable mappings, non-dict entry, unhashable key) is returned as
an error; in Python it would propagate out of load_config and abort startup
(the partially updated globals it leaves behind are never used, since main
stops there). -/
def applyData (data : Json) : Except PyErr (RState × List LogEvent) :=
  match pyGet data "forward_unmapped" (Json.bool false) with
  | Except.error e => Except.error e
  | Except.ok fuJ =>
    match pyGet data "mappings" (Json.arr []) with
    | Except.error e => Except.error e
    | Except.ok mJ =>
      match pyIter mJ with
      | Except.error e => Except.error e
      | Except.ok ms =>
        match buildMappings [] ms with
        | Except.error e => Except.error e
        | Except.ok vm =>
          Except.ok ({ valueMap := vm, forwardUnmapped := truthy fuJ },
                     [LogEvent.mappingsLoaded vm.length (truthy fuJ)])

/-- load_config (osc_router.py lines 83-130) as a function of the previous
global state and the file outcome.  When the file is missing the default is
written and then processed as `data`; when writing the default fails, or
reading an existing file fails, load_config logs the error and returns,
leaving both globals untouched. -/
def load_config (s : RState) (o : ConfigOutcome) : Except PyErr (RState × List LogEvent) :=
  match o with
  | ConfigOutcome.missingWriteOk =>
    match applyData default_config with
    | Except.error e => Except.error e
    | Except.ok (st, logs) => Except.ok (st, LogEvent.configCreated :: logs)
  | ConfigOutcome.missingWriteFail => Except.ok (s, [LogEvent.configError])
  | ConfigOutcome.readFail => Except.ok (s, [LogEvent.configError])
  | ConfigOutcome.readOk data =>
    match applyData data with
    | Except.error e => Except.error e
    | Except.ok (st, logs) => Except.ok (st, LogEvent.configLoaded :: logs)

/- ============================================================
   Helper lemmas
   ============================================================ -/

theorem pyEqH_refl (a : HVal) : pyEqH a a = true := by
  cases a <;> simp [pyEqH, numVal]

theorem pyEqKey_refl (k : HVal × HVal) : pyEqKey k k = true := by
  simp [pyEqKey, pyEqH_refl]

/-- A runtime argument is never `==` to None: its hashable view has a
numeric or string kind, and None compares equal only to None. -/
theorem pyEqH_hvalOf_null (v : Value) : pyEqH (hvalOf v) HVal.null = false := by
  cases v <;> simp [hvalOf, pyEqH, numVal]

/-- Looking up the key just inserted returns the value just inserted
(Python dict `d[k] = v` followed by `d[k]`). -/
theorem dictLookup_dictInsert_self (d : Dict) (k : HVal × HVal) (v : Json × Json) :
    dictLookup (dictInsert d k v) k = some v := by
  induction d with
  | nil => simp [dictInsert, dictLookup, pyEqKey_refl]
  | cons e d ih =>
    by_cases h : pyEqKey k e.1 = true
    · simp [dictInsert, dictLookup, h, List.any_cons, List.find?]
    · have hne : pyEqKey k e.1 = false := by
        cases hb : pyEqKey k e.1
        · rfl
        · exact absurd hb h
      by_cases ha : (d.any fun e2 => pyEqKey k e2.1) = true
      · have : dictInsert (e :: d) k v
            = e :: d.map (fun e2 => if pyEqKey k e2.1 then (e2.1, v) else e2) := by
          simp [dictInsert, List.any_cons, hne, ha]
        rw [this]
        have hd : dictInsert d k v
            = d.map (fun e2 => if pyEqKey k e2.1 then (e2.1, v) else e2) := by
          simp [dictInsert, ha]
        rw [← hd] at *
        simpa [dictLookup, List.find?, hne] using ih
      · have hna : (d.any fun e2 => pyEqKey k e2.1) = false := by
          cases hb : (d.any fun e2 => pyEqKey k e2.1)
          · rfl
          · exact absurd hb ha
        have : dictInsert (e :: d) k v = e :: (d ++ [(k, v)]) := by
          simp [dictInsert, List.any_cons, hne, hna]
        rw [this]
        have hd : dictInsert d k v = d ++ [(k, v)] := by
          simp [dictInsert, hna]
        rw [← hd]
        simpa [dictLookup, List.find?, hne] using ih

/-- Splitting the mappings loop at a list append. -/
theorem buildMappings_append (ms1 : List Json) (d : Dict) (ms2 : List Json) :
    buildMappings d (ms1 ++ ms2)
      = match buildMappings d ms1 with
        | Except.error e => Except.error e
        | Except.ok d2 => buildMappings d2 ms2 := by
  induction ms1 generalizing d with
  | nil => simp [buildMappings]
  | cons m ms ih =>
    simp only [List.cons_append, buildMappings]
    cases buildStep d m with
    | error e => rfl
    | ok d2 => exact ih d2

/- ============================================================
   Dispatch claims
   ============================================================ -/

/-- C1.  If the rule table stores an entry under key (A, V) and an inbound
message arrives at address A whose first argument is exactly V, osc_handler
produces the mapped Forward decision carrying that entry's out_address and
out_args verbatim — for every forward_unmapped policy and every tail of
further inbound arguments, whose contents are discarded entirely. -/
theorem c1_exact_match (vm : Dict) (fu : Bool) (a : String) (v : Value)
    (rest : List Value) (oa og : Json)
    (h : dictLookup vm (HVal.str a, hvalOf v) = some (oa, og)) :
    osc_handler vm fu { address := a, args := v :: rest }
      = (Decision.forward oa og,
         [LogEvent.recv a (v :: rest), LogEvent.send oa (send_args og)]) := by
  simp [osc_handler, firstKey, h]

/-- C2.  With forward_unmapped = true and no entry for the inbound message's
(address, first-argument) key, osc_handler forwards the inbound message
unchanged: same address, same argument sequence in the same order. -/
theorem c2_passthrough (vm : Dict) (a : String) (args : List Value)
    (h : dictLookup vm (HVal.str a, firstKey args) = none) :
    osc_handler vm true { address := a, args := args }
      = (Decision.forward (Json.str a) (Json.arr (args.map jsonOfValue)),
         [LogEvent.recv a args,
          LogEvent.send (Json.str a) (args.map jsonOfValue)]) := by
  simp [osc_handler, h]

/-- C3.  With forward_unmapped = false and no entry for the inbound
message's key, osc_handler produces no outbound message: the decision is
Drop and the only events emitted are the RECV log and the
`Ignored (no mapping for key)` log — no send occurs. -/
theorem c3_drop (vm : Dict) (a : String) (args : List Value)
    (h : dictLookup vm (HVal.str a, firstKey args) = none) :
    osc_handler vm false { address := a, args := args }
      = (Decision.drop,
         [LogEvent.recv a args,
          LogEvent.ignored (HVal.str a, firstKey args)]) := by
  simp [osc_handler, h]

/-- C9.  An Absent-valued rule is stored under key (A, None).  A message at
A with zero arguments queries exactly that key, so it takes the rule's
mapped Forward output; a message at A with one or more arguments queries
(A, first-argument), whose value component is never `==` to None, so the
Absent rule is never hit for it — in a table holding only the Absent rule
the lookup misses and (with forward_unmapped = false) the message drops. -/
theorem c9_absent (vm : Dict) (a : String) (oa og : Json) (fu : Bool)
    (v : Value) (rest : List Value) :
    (dictLookup vm (HVal.str a, HVal.null) = some (oa, og) →
      (osc_handler vm fu { address := a, args := [] }).1 = Decision.forward oa og) ∧
    dictLookup [((HVal.str a, HVal.null), (oa, og))] (HVal.str a, hvalOf v) = none ∧
    (osc_handler [((HVal.str a, HVal.null), (oa, og))] false
      { address := a, args := v :: rest }).1 = Decision.drop := by
  have hk : pyEqKey (HVal.str a, hvalOf v) (HVal.str a, HVal.null) = false := by
    simp [pyEqKey, pyEqH_hvalOf_null]
  have hmiss : dictLookup [((HVal.str a, HVal.null), (oa, og))] (HVal.str a, hvalOf v) = none := by
    simp [dictLookup, List.find?, hk]
  refine ⟨?_, hmiss, ?_⟩
  · intro h
    simp [osc_handler, firstKey, h]
  · simp [osc_handler, firstKey, hmiss]

/-- C1 witness: the spec's own example scenario, with an extra trailing
argument, matched against the rule table. -/
theorem c1_witness :
    osc_handler [((HVal.str "/btn/1", HVal.int 1), (Json.str "/light/1", Json.arr [Json.int 255]))]
        false { address := "/btn/1", args := [Value.int 1, Value.int 7] }
      = (Decision.forward (Json.str "/light/1") (Json.arr [Json.int 255]),
         [LogEvent.recv "/btn/1" [Value.int 1, Value.int 7],
          LogEvent.send (Json.str "/light/1") [Json.int 255]]) :=
  c1_exact_match _ false "/btn/1" (Value.int 1) [Value.int 7] _ _ (by rfl)

/-- C2 witness: an unmatched message is passed through verbatim. -/
theorem c2_witness :
    osc_handler [((HVal.str "/btn/1", HVal.int 1), (Json.str "/light/1", Json.arr [Json.int 255]))]
        true { address := "/btn/2", args := [Value.int 1] }
      = (Decision.forward (Json.str "/btn/2") (Json.arr [Json.int 1]),
         [LogEvent.recv "/btn/2" [Value.int 1],
          LogEvent.send (Json.str "/btn/2") [Json.int 1]]) :=
  c2_passthrough _ "/btn/2" [Value.int 1] (by rfl)

/-- C3 witness: the same unmatched message is dropped when
forward_unmapped is off. -/
theorem c3_witness :
    osc_handler [((HVal.str "/btn/1", HVal.int 1), (Json.str "/light/1", Json.arr [Json.int 255]))]
        false { address := "/btn/2", args := [Value.int 1] }
      = (Decision.drop,
         [LogEvent.recv "/btn/2" [Value.int 1],
          LogEvent.ignored (HVal.str "/btn/2", HVal.int 1)]) :=
  c3_drop _ "/btn/2" [Value.int 1] (by rfl)

/-- C9 witness: an Absent rule at /a forwards the zero-argument message and
misses the one-argument message. -/
theorem c9_witness :
    (osc_handler [((HVal.str "/a", HVal.null), (Json.str "/b", Json.arr []))] true
        { address := "/a", args := [] }).1 = Decision.forward (Json.str "/b") (Json.arr []) ∧
    dictLookup [((HVal.str "/a", HVal.null), (Json.str "/b", Json.arr []))]
        (HVal.str "/a", hvalOf (Value.int 0)) = none ∧
    (osc_handler [((HVal.str "/a", HVal.null), (Json.str "/b", Json.arr []))] false
        { address := "/a", args := [Value.int 0] }).1 = Decision.drop :=
  ⟨(c9_absent _ "/a" _ _ true (Value.int 0) []).1 (by rfl),
   (c9_absent [((HVal.str "/a", HVal.null), (Json.str "/b", Json.arr []))]
      "/a" (Json.str "/b") (Json.arr []) true (Value.int 0) []).2.1,
   (c9_absent [((HVal.str "/a", HVal.null), (Json.str "/b", Json.arr []))]
      "/a" (Json.str "/b") (Json.arr []) false (Value.int 0) []).2.2⟩

/-- C4 counterexample.  The claim predicts that a rule keyed by integer 1
is NOT hit by a message whose first argument is float 1.0.  In the code the
lookup uses Python `==`, under which 1 == 1.0, so with forward_unmapped
kept false (no passthrough possible) the handler nevertheless produces the
rule's mapped Forward output. -/
theorem c4_counterexample :
    (osc_handler [((HVal.str "/a", HVal.int 1), (Json.str "/b", Json.arr []))] false
        { address := "/a", args := [Value.float 1] }).1
      = Decision.forward (Json.str "/b") (Json.arr []) := by rfl

/-- C4 amended.  Matching compares the first argument to match_value with
Python `==`: a rule keyed by integer n is hit by a float first argument
exactly when the two are numerically equal (so int 1 and float 1.0 DO
collide), and is never hit by a string first argument. -/
theorem c4_amended (a : String) (n : ℤ) (q : ℚ) (oa og : Json) (fu : Bool)
    (rest : List Value) (s : String) :
    ((n : ℚ) = q →
      (osc_handler [((HVal.str a, HVal.int n), (oa, og))] fu
        { address := a, args := Value.float q :: rest }).1 = Decision.forward oa og) ∧
    ((n : ℚ) ≠ q →
      (osc_handler [((HVal.str a, HVal.int n), (oa, og))] false
        { address := a, args := Value.float q :: rest }).1 = Decision.drop) ∧
    (osc_handler [((HVal.str a, HVal.int n), (oa, og))] false
      { address := a, args := Value.str s :: rest }).1 = Decision.drop := by
  refine ⟨?_, ?_, ?_⟩
  · intro h
    have hk : pyEqKey (HVal.str a, hvalOf (Value.float q)) (HVal.str a, HVal.int n) = true := by
      simp [pyEqKey, pyEqH, numVal, hvalOf, pyEqH_refl, h]
    simp [osc_handler, firstKey, dictLookup, List.find?, hk]
  · intro h
    have hk : pyEqKey (HVal.str a, hvalOf (Value.float q)) (HVal.str a, HVal.int n) = false := by
      simp [pyEqKey, pyEqH, numVal, hvalOf]
      intro hq
      exact absurd hq.symm h
    simp [osc_handler, firstKey, dictLookup, List.find?, hk]
  · have hk : pyEqKey (HVal.str a, hvalOf (Value.str s)) (HVal.str a, HVal.int n) = false := by
      simp [pyEqKey, pyEqH, numVal, hvalOf]
    simp [osc_handler, firstKey, dictLookup, List.find?, hk]

/-- C4 amended witness: int-1 rule hit by float 1.0, missed by float 2.0,
missed by a string. -/
theorem c4_amended_witness :
    (osc_handler [((HVal.str "/a", HVal.int 1), (Json.str "/b", Json.arr []))] true
        { address := "/a", args := [Value.float 1] }).1
      = Decision.forward (Json.str "/b") (Json.arr []) ∧
    (osc_handler [((HVal.str "/a", HVal.int 1), (Json.str "/b", Json.arr []))] false
        { address := "/a", args := [Value.float 2] }).1 = Decision.drop ∧
    (osc_handler [((HVal.str "/a", HVal.int 1), (Json.str "/b", Json.arr []))] false
        { address := "/a", args := [Value.str "x"] }).1 = Decision.drop :=
  ⟨(c4_amended "/a" 1 1 _ _ true [] "x").1 (by norm_num),
   (c4_amended "/a" 1 2 _ _ false [] "x").2.1 (by norm_num),
   (c4_amended "/a" 1 2 _ _ false [] "x").2.2⟩

/- ============================================================
   Configuration claims
   ============================================================ -/

/-- dict.get falls back to the default when no field has the key. -/
theorem jsonGetD_of_not_mem (fields : List (String × Json)) (k : String) (d : Json)
    (h : ∀ p ∈ fields, p.1 ≠ k) : jsonGetD fields k d = d := by
  unfold jsonGetD
  have hnone : fields.reverse.find? (fun p => decide (p.1 = k)) = none := by
    apply List.find?_eq_none.mpr
    intro p hp
    simpa using h p (List.mem_reverse.mp hp)
  rw [hnone]

/-- The JSON kinds whose decoded Python values are hashable. -/
def jsonHashable : Json → Bool
  | Json.arr _ => false
  | Json.obj _ => false
  | _ => true

theorem toHashable_ok_of_prim (j : Json) (h : jsonHashable j = true) :
    ∃ hv, toHashable j = Except.ok hv := by
  cases j <;> simp [jsonHashable] at h ⊢ <;> simp [toHashable]

/-- A mappings entry (a JSON object) whose addresses, when both truthy,
have hashable in_address and in_value, never makes the loop body raise. -/
theorem buildStep_ok_of_shape (mf : List (String × Json))
    (hcond : truthy (jsonGetD mf "in_address" Json.null) = true →
             truthy (jsonGetD mf "out_address" Json.null) = true →
             jsonHashable (jsonGetD mf "in_address" Json.null) = true ∧
             jsonHashable (jsonGetD mf "in_value" Json.null) = true)
    (d : Dict) : ∃ d2, buildStep d (Json.obj mf) = Except.ok d2 := by
  by_cases h1 : truthy (jsonGetD mf "in_address" Json.null) = true
  · by_cases h2 : truthy (jsonGetD mf "out_address" Json.null) = true
    · obtain ⟨ha, hv⟩ := hcond h1 h2
      obtain ⟨ka, hka⟩ := toHashable_ok_of_prim _ ha
      obtain ⟨kv, hkv⟩ := toHashable_ok_of_prim _ hv
      refine ⟨dictInsert d (ka, kv)
        (jsonGetD mf "out_address" Json.null, jsonGetD mf "out_args" (Json.arr [])), ?_⟩
      simp [buildStep, pyGet, h1, h2, hka, hkv]
    · simp only [Bool.not_eq_true] at h2
      exact ⟨d, by simp [buildStep, pyGet, h2]⟩
  · simp only [Bool.not_eq_true] at h1
    exact ⟨d, by simp [buildStep, pyGet, h1]⟩

/-- If every entry of the list makes the loop body succeed, the whole
mappings loop succeeds. -/
theorem buildMappings_ok_of_steps (l : List Json)
    (h : ∀ m ∈ l, ∀ d, ∃ d2, buildStep d m = Except.ok d2) :
    ∀ d, ∃ d2, buildMappings d l = Except.ok d2 := by
  induction l with
  | nil => exact fun d => ⟨d, rfl⟩
  | cons m ms ih =>
    intro d
    obtain ⟨d2, hd2⟩ := h m (List.mem_cons_self m ms) d
    obtain ⟨d3, hd3⟩ := ih (fun x hx => h x (List.mem_cons_of_mem m hx)) d2
    exact ⟨d3, by simp [buildMappings, hd2, hd3]⟩

/-- C5 counterexample.  When reading the config file fails, load_config
logs the error and returns without touching the globals; at startup those
are VALUE_MAP = empty and FORWARD_UNMAPPED = True (module lines 32-33).
So the state used for dispatch has forward_unmapped = true, not false as
the claim states. -/
theorem c5_counterexample :
    load_config initState ConfigOutcome.readFail
      = Except.ok ({ valueMap := [], forwardUnmapped := true }, [LogEvent.configError]) ∧
    load_config initState ConfigOutcome.readFail
      ≠ Except.ok ({ valueMap := [], forwardUnmapped := false }, [LogEvent.configError]) := by
  refine ⟨rfl, ?_⟩
  intro h
  rw [show load_config initState ConfigOutcome.readFail
      = Except.ok ({ valueMap := [], forwardUnmapped := true }, [LogEvent.configError]) from rfl] at h
  simp [RState.mk.injEq] at h

/-- C5 amended.  A wholly unreadable configuration source at startup yields
the empty Rule Table together with forward_unmapped = TRUE (the module-level
default is retained, since load_config returns before assigning either
global); the failure is logged and is not fatal (no exception escapes). -/
theorem c5_amended :
    load_config initState ConfigOutcome.readFail
      = Except.ok ({ valueMap := [], forwardUnmapped := true }, [LogEvent.configError]) := rfl

/-- C6 counterexample.  Construction is not exception-free for every
decoded configuration value: an entry whose in_value is a list makes the
key tuple unhashable, and the assignment into mappings_dict raises
TypeError, which load_config does not catch. -/
theorem c6_counterexample :
    load_config initState (ConfigOutcome.readOk (Json.obj
        [("mappings", Json.arr [Json.obj
          [("in_address", Json.str "/a"), ("in_value", Json.arr []),
           ("out_address", Json.str "/b")]])]))
      = Except.error PyErr.typeError := by rfl

/-- C6 amended.  Construction never raises provided the decoded
configuration value is a JSON object, its mappings value is a list of JSON
objects, and every entry that passes the address check (both addresses
truthy) has hashable in_address and in_value; malformed entries in that
class are skipped and the worst case is an empty table. -/
theorem c6_amended (s : RState) (fields : List (String × Json)) (ms : List Json)
    (hm : jsonGetD fields "mappings" (Json.arr []) = Json.arr ms)
    (hent : ∀ m ∈ ms, ∃ mf, m = Json.obj mf ∧
        (truthy (jsonGetD mf "in_address" Json.null) = true →
         truthy (jsonGetD mf "out_address" Json.null) = true →
         jsonHashable (jsonGetD mf "in_address" Json.null) = true ∧
         jsonHashable (jsonGetD mf "in_value" Json.null) = true)) :
    ∃ res, load_config s (ConfigOutcome.readOk (Json.obj fields)) = Except.ok res := by
  have hsteps : ∀ m ∈ ms, ∀ d, ∃ d2, buildStep d m = Except.ok d2 := by
    intro m hmem d
    obtain ⟨mf, rfl, hcond⟩ := hent m hmem
    exact buildStep_ok_of_shape mf hcond d
  obtain ⟨vm, hvm⟩ := buildMappings_ok_of_steps ms hsteps []
  refine ⟨({ valueMap := vm,
             forwardUnmapped := truthy (jsonGetD fields "forward_unmapped" (Json.bool false)) },
           [LogEvent.configLoaded,
            LogEvent.mappingsLoaded vm.length
              (truthy (jsonGetD fields "forward_unmapped" (Json.bool false)))]), ?_⟩
  simp [load_config, applyData, pyGet, hm, pyIter, hvm]

/-- C6 amended witness: a well-shaped one-rule config loads without
raising. -/
theorem c6_amended_witness :
    ∃ res, load_config initState (ConfigOutcome.readOk (Json.obj
        [("forward_unmapped", Json.bool true),
         ("mappings", Json.arr [Json.obj
           [("in_address", Json.str "/a"), ("in_value", Json.int 1),
            ("out_address", Json.str "/b"), ("out_args", Json.arr [Json.int 255])]])]))
      = Except.ok res :=
  c6_amended initState _ _ (by rfl)
    (fun m hmem => by
      simp only [List.mem_singleton] at hmem
      subst hmem
      exact ⟨_, rfl, fun _ _ => ⟨rfl, rfl⟩⟩)

/-- C7.  Last-write-wins: whatever bindings the earlier entries produced
(in particular an earlier entry with the same key), after processing a
final valid entry the table maps that entry's key to that entry's
(out_address, out_args). -/
theorem c7_last_write_wins (d0 : Dict) (ms : List Json)
    (mf : List (String × Json)) (ka kv : HVal) (vm : Dict)
    (ha : truthy (jsonGetD mf "in_address" Json.null) = true)
    (hb : truthy (jsonGetD mf "out_address" Json.null) = true)
    (hka : toHashable (jsonGetD mf "in_address" Json.null) = Except.ok ka)
    (hkv : toHashable (jsonGetD mf "in_value" Json.null) = Except.ok kv)
    (hbuild : buildMappings d0 (ms ++ [Json.obj mf]) = Except.ok vm) :
    dictLookup vm (ka, kv)
      = some (jsonGetD mf "out_address" Json.null,
              jsonGetD mf "out_args" (Json.arr [])) := by
  rw [buildMappings_append] at hbuild
  cases h1 : buildMappings d0 ms with
  | error e => rw [h1] at hbuild; exact absurd hbuild (by simp)
  | ok d1 =>
    rw [h1] at hbuild
    simp [buildMappings, buildStep, pyGet, ha, hb, hka, hkv] at hbuild
    rw [← hbuild]
    exact dictLookup_dictInsert_self d1 (ka, kv) _

/-- C7 witness: two entries with the identical key (/btn/1, 1); the lookup
after construction returns the later entry's output. -/
theorem c7_witness :
    dictLookup
      [((HVal.str "/btn/1", HVal.int 1), (Json.str "/late", Json.arr [Json.int 2]))]
      (HVal.str "/btn/1", HVal.int 1)
      = some (Json.str "/late", Json.arr [Json.int 2]) :=
  c7_last_write_wins []
    [Json.obj [("in_address", Json.str "/btn/1"), ("in_value", Json.int 1),
               ("out_address", Json.str "/early"), ("out_args", Json.arr [Json.int 1])]]
    [("in_address", Json.str "/btn/1"), ("in_value", Json.int 1),
     ("out_address", Json.str "/late"), ("out_args", Json.arr [Json.int 2])]
    (HVal.str "/btn/1") (HVal.int 1) _ (by rfl) (by rfl) (by rfl) (by rfl) (by rfl)

/-- C8.  An entry whose in_address or out_address is missing (get yields
None) or the empty string is discarded by the loop without raising, and the
built table is exactly the one built without that entry, so the entry never
influences any lookup. -/
theorem c8_malformed_skip (mf : List (String × Json))
    (h : jsonGetD mf "in_address" Json.null = Json.null ∨
         jsonGetD mf "in_address" Json.null = Json.str "" ∨
         jsonGetD mf "out_address" Json.null = Json.null ∨
         jsonGetD mf "out_address" Json.null = Json.str "") :
    (∀ d, buildStep d (Json.obj mf) = Except.ok d) ∧
    (∀ d0 ms1 ms2,
      buildMappings d0 (ms1 ++ Json.obj mf :: ms2) = buildMappings d0 (ms1 ++ ms2)) := by
  have hstep : ∀ d, buildStep d (Json.obj mf) = Except.ok d := by
    intro d
    have hcond : (!truthy (jsonGetD mf "in_address" Json.null)
        || !truthy (jsonGetD mf "out_address" Json.null)) = true := by
      rcases h with h | h | h | h <;> rw [h] <;> simp [truthy]
    simp [buildStep, pyGet, hcond]
  refine ⟨hstep, ?_⟩
  intro d0 ms1 ms2
  rw [buildMappings_append, buildMappings_append]
  cases h1 : buildMappings d0 ms1 with
  | error e => rfl
  | ok d1 => simp [buildMappings, hstep d1]

/-- C8 witness: an entry missing out_address sits between two valid entries
and the built table is the same as without it. -/
theorem c8_witness :
    (buildStep [] (Json.obj [("in_address", Json.str "/a"), ("in_value", Json.int 1)])
      = Except.ok []) ∧
    buildMappings []
        ([Json.obj [("in_address", Json.str "/x"), ("out_address", Json.str "/y")]]
          ++ Json.obj [("in_address", Json.str "/a"), ("in_value", Json.int 1)]
          :: [Json.obj [("in_address", Json.str "/p"), ("out_address", Json.str "/q")]])
      = buildMappings []
        ([Json.obj [("in_address", Json.str "/x"), ("out_address", Json.str "/y")]]
          ++ [Json.obj [("in_address", Json.str "/p"), ("out_address", Json.str "/q")]]) :=
  ⟨(c8_malformed_skip _ (by simp [jsonGetD])).1 [],
   (c8_malformed_skip [("in_address", Json.str "/a"), ("in_value", Json.int 1)]
      (by simp [jsonGetD])).2 []
      [Json.obj [("in_address", Json.str "/x"), ("out_address", Json.str "/y")]]
      [Json.obj [("in_address", Json.str "/p"), ("out_address", Json.str "/q")]]⟩

/-- C10.  A successfully decoded configuration object with no
"forward_unmapped" key makes load_config set the policy to false
(bool(data.get("forward_unmapped", False))), even though the default file
the program writes when none exists carries forward_unmapped = true and
therefore loads with the policy true. -/
theorem c10_missing_flag_default (fields : List (String × Json))
    (hk : ∀ p ∈ fields, p.1 ≠ "forward_unmapped") :
    (∀ s st logs,
      load_config s (ConfigOutcome.readOk (Json.obj fields)) = Except.ok (st, logs) →
        st.forwardUnmapped = false) ∧
    (∀ s, load_config s ConfigOutcome.missingWriteOk
        = Except.ok ({ valueMap := [], forwardUnmapped := true },
                     [LogEvent.configCreated, LogEvent.mappingsLoaded 0 true])) := by
  constructor
  · intro s st logs h
    have hget : jsonGetD fields "forward_unmapped" (Json.bool false) = Json.bool false :=
      jsonGetD_of_not_mem fields "forward_unmapped" (Json.bool false) hk
    simp only [load_config, applyData, pyGet, hget, truthy] at h
    split at h
    · simp at h
    · rename_i st0 logs0 heq
      split at heq
      · simp at heq
      · rename_i ms hiter
        split at heq
        · simp at heq
        · rename_i vm hbuild
          simp only [Except.ok.injEq, Prod.mk.injEq] at heq h
          rw [← h.1, ← heq.1]
  · intro s
    rfl

/-- C10 witness: a config with only a mappings key loads with the policy
false; the default-created config loads with the policy true. -/
theorem c10_witness :
    (RState.mk [] false).forwardUnmapped = false ∧
    load_config initState ConfigOutcome.missingWriteOk
      = Except.ok ({ valueMap := [], forwardUnmapped := true },
                   [LogEvent.configCreated, LogEvent.mappingsLoaded 0 true]) :=
  ⟨(c10_missing_flag_default [("mappings", Json.arr [])] (by decide)).1 initState
      { valueMap := [], forwardUnmapped := false }
      [LogEvent.configLoaded, LogEvent.mappingsLoaded 0 false] (by rfl),
   (c10_missing_flag_default [] (by simp)).2 initState⟩

end OscRouter
